import Mathlib

set_option maxRecDepth 100000

/-!
Verification development for the link-me repository.

This file gives a shallow embedding of the conversation-driven tutorial
discovery pipeline: the Curation Engine (`src/lib/curriculum.ts`,
`analyzeAndCurateVideos`), the YouTube Search Gateway
(`src/lib/youtube.ts`, `searchTutorials` and `generateClarifyingQuestions`),
the two Dialogue Controller variants (`/api/chat/message` route), and the
Progress Tracker (`/api/learning-path/progress` route).

External effects (the Gemini call, the YouTube HTTP calls, the database)
are modelled as explicit inputs: the generative service's parsed JSON is an
`Option RawAnalysis` argument (`none` = network/parse failure), the search
provider's responses are list arguments, and the database is an explicit
record threaded through the progress handler.  JavaScript strings are
modelled as `List Char` where text processing (lowercasing, substring
search) matters, and as Lean `String` where only equality matters.
-/

/-! ## Data model from `src/lib/youtube.ts` -/

/-- The `YouTubeVideo` interface from `src/lib/youtube.ts`.  `viewCount` and
`duration` are optional in the source (`viewCount?: string`). -/
structure YouTubeVideo where
  id : String
  title : String
  description : String
  thumbnail : String
  channelTitle : String
  publishedAt : String
  viewCount : Option String
  duration : Option String
  url : String
  deriving Repr, DecidableEq

/-! ## Data model from `src/lib/curriculum.ts` (part_016) -/

/-- The `VideoAnalysis` interface from `src/lib/curriculum.ts`. -/
structure VideoAnalysis where
  videoId : String
  title : String
  qualityScore : Nat
  difficulty : String
  conceptsCovered : List String
  learningOutcomes : List String
  prerequisites : List String
  whyRecommended : String
  estimatedTime : String
  order : Nat
  deriving Repr, DecidableEq

/-- The `LearningStage` interface from `src/lib/curriculum.ts`. -/
structure LearningStage where
  stageName : String
  stageNumber : Nat
  description : String
  videos : List VideoAnalysis
  deriving Repr, DecidableEq

/-- The `LearningPath` interface from `src/lib/curriculum.ts`. -/
structure LearningPath where
  topic : String
  userLevel : String
  userGoal : String
  totalVideos : Nat
  estimatedTotalTime : String
  stages : List LearningStage
  completionGoals : List String
  summary : String
  deriving Repr, DecidableEq

/-- One video entry of the untrusted JSON block extracted from the
reasoning service's response text (the `videoAnalysis` objects inside
`analysis.stages[..].videos`).  Every field except `videoId` is optional:
the JavaScript reads them with `||`-defaults. -/
structure RawVideoEntry where
  videoId : String
  qualityScore : Option Nat
  difficulty : Option String
  conceptsCovered : Option (List String)
  learningOutcomes : Option (List String)
  prerequisites : Option (List String)
  whyRecommended : Option String
  order : Option Nat
  deriving Repr, DecidableEq

/-- One stage of the untrusted service JSON (`analysis.stages[..]`). -/
structure RawStage where
  stageName : String
  stageNumber : Nat
  description : String
  videos : Option (List RawVideoEntry)
  deriving Repr, DecidableEq

/-- The untrusted parsed JSON object of the service response
(`const analysis = JSON.parse(jsonMatch[0])`). -/
structure RawAnalysis where
  summary : Option String
  estimatedTotalTime : Option String
  completionGoals : Option (List String)
  stages : Option (List RawStage)
  deriving Repr, DecidableEq

/-- JavaScript `x || d` for an optional number: `null`/`undefined` and `0`
are falsy, so both fall back to the default. -/
def jsOrNat (o : Option Nat) (d : Nat) : Nat :=
  match o with
  | some n => if n = 0 then d else n
  | none => d

/-- JavaScript `x || d` for an optional string: `null`/`undefined` and the
empty string are falsy. -/
def jsOrStr (o : Option String) (d : String) : String :=
  match o with
  | some s => if s = "" then d else s
  | none => d

/-- The body of the inner loop of `analyzeAndCurateVideos`: look the claimed
`videoId` up in the original candidate batch (`videos.find(v => v.id ===
videoAnalysis.videoId)`); drop the entry when no candidate matches,
otherwise build the merged `VideoAnalysis` (authoritative `videoId`,
`title` and `estimatedTime` come from the original candidate). -/
def processEntry (videos : List YouTubeVideo) (e : RawVideoEntry) :
    Option VideoAnalysis :=
  match videos.find? (fun v => v.id == e.videoId) with
  | none => none
  | some originalVideo =>
      some {
        videoId := originalVideo.id
        title := originalVideo.title
        qualityScore := jsOrNat e.qualityScore 7
        difficulty := jsOrStr e.difficulty "beginner"
        conceptsCovered := e.conceptsCovered.getD []
        learningOutcomes := e.learningOutcomes.getD []
        prerequisites := e.prerequisites.getD []
        whyRecommended := jsOrStr e.whyRecommended "Relevant to your learning goals"
        estimatedTime := jsOrStr originalVideo.duration "Unknown"
        order := jsOrNat e.order 1 }

/-- One iteration of the outer loop of `analyzeAndCurateVideos`: copy the
stage metadata and keep the entries that matched a candidate. -/
def processStage (videos : List YouTubeVideo) (stage : RawStage) :
    LearningStage :=
  { stageName := stage.stageName
    stageNumber := stage.stageNumber
    description := stage.description
    videos := (stage.videos.getD []).filterMap (processEntry videos) }

/-- `analyzeAndCurateVideos` from `src/lib/curriculum.ts`.  `hasApiKey`
models the `GEMINI_API_KEY` environment check and `serviceResponse` the
parsed JSON block of the Gemini reply (`none` covers both the call failing
and `responseText.match(/\{[\s\S]*\}/)` finding no JSON object; either way
the function returns `null`).  `totalVideos` is incremented once per
matched entry in the source loop, which is the sum of the matched-entry
counts over all processed stages; a processed stage is pushed onto
`stages` only when it kept at least one video.  The final
`return learningPath` is unconditional. -/
def analyzeAndCurateVideos (hasApiKey : Bool) (videos : List YouTubeVideo)
    (topic userLevel userGoal : String)
    (serviceResponse : Option RawAnalysis) : Option LearningPath :=
  if !hasApiKey || videos.length == 0 then none
  else
    match serviceResponse with
    | none => none
    | some analysis =>
        let processed := (analysis.stages.getD []).map (processStage videos)
        some {
          topic := topic
          userLevel := userLevel
          userGoal := userGoal
          totalVideos := (processed.map (fun st => st.videos.length)).sum
          estimatedTotalTime := jsOrStr analysis.estimatedTotalTime "Unknown"
          stages := processed.filter (fun st => st.videos.length > 0)
          completionGoals := analysis.completionGoals.getD []
          summary := jsOrStr analysis.summary "" }

/-- All `videoId`s of a returned path, in stage order. -/
def pathVideoIds (p : LearningPath) : List String :=
  p.stages.flatMap (fun st => st.videos.map (fun va => va.videoId))

/-- All `videoId`s the service response claims, in stage order, before any
validation. -/
def rawVideoIds (analysis : RawAnalysis) : List String :=
  (analysis.stages.getD []).flatMap
    (fun s => (s.videos.getD []).map (fun e => e.videoId))

/-- The number of service entries whose `videoId` matches a candidate of
the input batch. -/
def matchedCount (videos : List YouTubeVideo) (analysis : RawAnalysis) : Nat :=
  ((analysis.stages.getD []).flatMap (fun s => s.videos.getD [])).countP
    (fun e => (videos.find? (fun v => v.id == e.videoId)).isSome)

/-- A concrete candidate used in concrete evaluations. -/
def sampleVideo : YouTubeVideo :=
  { id := "vid1", title := "Intro", description := "d", thumbnail := ""
    channelTitle := "chan", publishedAt := "2025", viewCount := none
    duration := some "10:00", url := "https://www.youtube.com/watch?v=vid1" }

/-- A raw service entry referencing a given id, with every optional field
absent. -/
def rawEntry (id : String) : RawVideoEntry :=
  { videoId := id, qualityScore := none, difficulty := none
    conceptsCovered := none, learningOutcomes := none, prerequisites := none
    whyRecommended := none, order := none }

/-- A service response with a single stage holding the given entries. -/
def rawOneStage (entries : List RawVideoEntry) : RawAnalysis :=
  { summary := none, estimatedTotalTime := none, completionGoals := none
    stages := some [{ stageName := "Stage 1", stageNumber := 1
                      description := "d", videos := some entries }] }

/-- The merged `VideoAnalysis` that `processEntry` produces for
`sampleVideo` from a bare raw entry. -/
def sampleAnalysis : VideoAnalysis :=
  { videoId := "vid1", title := "Intro", qualityScore := 7
    difficulty := "beginner", conceptsCovered := [], learningOutcomes := []
    prerequisites := [], whyRecommended := "Relevant to your learning goals"
    estimatedTime := "10:00", order := 1 }

/-- The stage produced for `rawOneStage [rawEntry "vid1"]`. -/
def sampleStage : LearningStage :=
  { stageName := "Stage 1", stageNumber := 1, description := "d"
    videos := [sampleAnalysis] }

/-- The path produced for one candidate and one matching service entry. -/
def samplePath : LearningPath :=
  { topic := "t", userLevel := "beginner", userGoal := "project"
    totalVideos := 1, estimatedTotalTime := "Unknown"
    stages := [sampleStage], completionGoals := [], summary := "" }

/-! ## JavaScript string primitives

JavaScript strings are modelled as `List Char` (`Str`), with structural
recursion so that every operation evaluates inside the kernel.  Each helper
embeds the JS string method named in its doc comment. -/

/-- JavaScript strings, as character lists. -/
abbrev Str := List Char

/-- Coerce a Lean string literal to the model's string type. -/
def str (s : String) : Str := s.data

/-- ASCII lowering of one character (`String.prototype.toLowerCase` acts
per character; all text handled by the controllers is ASCII). -/
def lowerChar (c : Char) : Char :=
  if 'A' ≤ c && c ≤ 'Z' then Char.ofNat (c.toNat + 32) else c

/-- `s.toLowerCase()`. -/
def jsToLower (s : Str) : Str := s.map lowerChar

/-- ASCII raising of one character. -/
def upperChar (c : Char) : Char :=
  if 'a' ≤ c && c ≤ 'z' then Char.ofNat (c.toNat - 32) else c

/-- `s.charAt(0).toUpperCase() + s.slice(1)`. -/
def upperFirst : Str → Str
  | [] => []
  | c :: t => upperChar c :: t

/-- Whitespace for `String.prototype.trim` (the characters that occur in
this system's inputs). -/
def isJsWhitespace (c : Char) : Bool :=
  c == ' ' || c == '\n' || c == '\t' || c == '\r'

/-- `s.trim()`. -/
def jsTrim (s : Str) : Str :=
  ((s.dropWhile isJsWhitespace).reverse.dropWhile isJsWhitespace).reverse

/-- Whether the first list is an initial segment of the second. -/
def strLeads : Str → Str → Bool
  | [], _ => true
  | _ :: _, [] => false
  | a :: as, b :: bs => a == b && strLeads as bs

/-- `s.includes(needle)` (also used for `s.startsWith` via `strLeads`). -/
def jsIncludes : Str → Str → Bool
  | [], needle => strLeads needle []
  | c :: t, needle => strLeads needle (c :: t) || jsIncludes t needle

/-- `s.split(/\s+/)` restricted to its use sites: the callers only keep
words of length above a threshold, so empty tokens are dropped here. -/
def wordsOfAux : Str → Str → List Str → List Str
  | [], cur, acc => if cur.isEmpty then acc else acc ++ [cur.reverse]
  | c :: t, cur, acc =>
      if isJsWhitespace c then
        if cur.isEmpty then wordsOfAux t [] acc
        else wordsOfAux t [] (acc ++ [cur.reverse])
      else wordsOfAux t (c :: cur) acc

/-- The whitespace-separated words of a string. -/
def wordsOf (s : Str) : List Str := wordsOfAux s [] []

/-- One decimal digit as a character. -/
def digitChar (n : Nat) : Char := Char.ofNat (48 + n % 10)

/-- Decimal rendering of a natural number (fuel-structured so that it
evaluates in the kernel). -/
def natToStrAux : Nat → Nat → Str
  | 0, _ => []
  | fuel + 1, n =>
      if n < 10 then [digitChar n]
      else natToStrAux fuel (n / 10) ++ [digitChar (n % 10)]

/-- `String(n)` for a natural number. -/
def natToStr (n : Nat) : Str := natToStrAux (n + 1) n

/-- Drop characters up to and including the first `>`. -/
def dropThroughGt : Str → Str
  | [] => []
  | c :: t => if c == '>' then t else dropThroughGt t

/-- `input.replace(/<[^>]*>/g, '')` from `sanitizeInput`
(`src/lib/validation.ts`): every maximal-from-`<` span up to the nearest
`>` is removed; a `<` with no later `>` stays.  Fuel-structured (the fuel
is an upper bound on the length) so that the kernel can evaluate it. -/
def stripTagsFuel : Nat → Str → Str
  | _, [] => []
  | 0, s => s
  | fuel + 1, c :: t =>
      if c == '<' && t.contains '>' then stripTagsFuel fuel (dropThroughGt t)
      else c :: stripTagsFuel fuel t

/-- Tag removal at adequate fuel. -/
def stripTags (s : Str) : Str := stripTagsFuel s.length s

/-- The entity map of `sanitizeInput`: `<`, `>`, `'`, `"`, `&` are escaped. -/
def escapeChar (c : Char) : Str :=
  if c == '<' then str "&lt;"
  else if c == '>' then str "&gt;"
  else if c == '\x27' then str "&#39;"
  else if c == '"' then str "&quot;"
  else if c == '&' then str "&amp;"
  else [c]

/-- `sanitizeInput` from `src/lib/validation.ts`: strip HTML tag spans,
escape the special characters, then trim. -/
def sanitizeStr (s : Str) : Str :=
  jsTrim ((stripTags s).flatMap escapeChar)

/-! ## Dialogue Controller, keyword variant (part_006, `/api/chat/message`)

The handler's external concerns (rate limit, auth cookie, zod validation,
chat-history persistence) are orthogonal to the conversation step and are
not modelled; the step takes the in-memory `ConversationState` for the
conversation id, the inbound message, and the search provider as a
function from query text to a result (`Except.error` models a thrown
search error).  The returned state is the one held by the in-memory map
after the turn (the handler mutates the stored object in place). -/

/-- The dialogue stages of the part_006 controller. -/
inductive DialogStage
  | greeting
  | got_topic
  | got_level
  | ready_to_search
  | results
  deriving Repr, DecidableEq

/-- `ConversationState` of the part_006 controller. -/
structure ConvState where
  stage : DialogStage
  topic : Option Str := none
  skillLevel : Option Str := none
  goal : Option Str := none
  deriving Repr, DecidableEq

/-- `SKILL_KEYWORDS`, in object-entry order. -/
def SKILL_KEYWORDS : List (Str × List Str) :=
  [ (str "beginner",
     [str "beginner", str "begginer", str "beginer", str "newbie", str "new",
      str "noob", str "starting", str "start", str "first", str "never",
      str "basics", str "basic", str "zero", str "fresh", str "just starting",
      str "total beginner"]),
    (str "intermediate",
     [str "intermediate", str "intermed", str "medium", str "mid",
      str "some experience", str "know basics", str "familiar",
      str "worked with", str "used before", str "okay", str "ok",
      str "decent", str "middle"]),
    (str "advanced",
     [str "advanced", str "advance", str "expert", str "experienced",
      str "pro", str "professional", str "senior", str "years",
      str "master", str "skilled"]) ]

/-- `GOAL_KEYWORDS`, in object-entry order. -/
def GOAL_KEYWORDS : List (Str × List Str) :=
  [ (str "project",
     [str "project", str "build", str "make", str "create", str "develop",
      str "app", str "website", str "portfolio", str "practical",
      str "hands-on", str "application", str "something"]),
    (str "concepts",
     [str "concept", str "theory", str "understand", str "learn",
      str "fundamentals", str "how it works", str "why", str "comprehensive"]),
    (str "quick",
     [str "quick", str "fast", str "crash course", str "overview",
      str "intro", str "introduction", str "brief", str "short"]) ]

/-- `isGreeting` from part_006. -/
def isGreeting (message : Str) : Bool :=
  let greetings :=
    [str "hey", str "hi", str "hello", str "yo", str "sup", str "hiya",
     str "howdy", str "good morning", str "good afternoon",
     str "good evening", str "whats up", str "what\x27s up", str "hii",
     str "heyy", str "heyyy", str "helloo"]
  let lower := jsTrim (jsToLower message)
  greetings.any (fun g =>
    lower == g || lower == g ++ str "!" || lower == g ++ str "!!" ||
    strLeads (g ++ str " ") lower)

/-- `isUnsure` from part_006. -/
def isUnsure (message : Str) : Bool :=
  let patterns :=
    [str "idk", str "i don\x27t know", str "i dont know", str "not sure",
     str "no idea", str "dunno", str "unsure", str "whatever", str "any",
     str "anything", str "doesn\x27t matter", str "up to you", str "?"]
  let lower := jsTrim (jsToLower message)
  patterns.any (fun p => jsIncludes lower p) || lower.length < 3

/-- `extractSkillLevel` from part_006: first table entry with a matching
keyword wins. -/
def extractSkillLevel (message : Str) : Option Str :=
  let lower := jsToLower message
  (SKILL_KEYWORDS.find?
    (fun kv => kv.2.any (fun k => jsIncludes lower k))).map (fun kv => kv.1)

/-- `extractGoal` from part_006. -/
def extractGoal (message : Str) : Option Str :=
  let lower := jsToLower message
  (GOAL_KEYWORDS.find?
    (fun kv => kv.2.any (fun k => jsIncludes lower k))).map (fun kv => kv.1)

/-- The reset vocabulary of part_006 and its substring check
(`resetWords.some(w => userMessage.toLowerCase().includes(w))`). -/
def containsResetWord (userMessage : Str) : Bool :=
  [str "start over", str "reset", str "new topic", str "something else",
   str "different"].any (fun w => jsIncludes (jsToLower userMessage) w)

/-- Interpolation of an optional string into a template literal: an unset
slot renders as the text `undefined`, as in JavaScript. -/
def optToStr (o : Option Str) : Str := o.getD (str "undefined")

/-- `getSkillQuestion` from part_006. -/
def getSkillQuestion (topic : Str) : Str :=
  str "Great! I\x27d love to help you learn " ++ topic ++
  str ".\n\nTo find the best tutorials for you, what\x27s your experience level?\n\n• Beginner - totally new to this\n• Intermediate - know the basics\n• Advanced - looking for deeper knowledge\n\nJust say beginner, intermediate, or advanced!"

/-- `getGoalQuestion` from part_006. -/
def getGoalQuestion (topic level : Str) : Str :=
  str "Perfect, looking for " ++ level ++ str " " ++ topic ++
  str " tutorials.\n\nWhat\x27s your learning goal?\n\n• Build something - hands-on project tutorials\n• Learn concepts - understand the fundamentals\n• Quick overview - get started fast\n\nWhat sounds right for you?"

/-- The got_topic retry prompt of part_006 (line 191). -/
def skillRetryQuestion (topic : Str) : Str :=
  str "Are you a beginner, intermediate, or advanced learner when it comes to " ++
  topic ++ str "?"

/-- The greeting-stage hello response of part_006. -/
def greetingIntro : Str :=
  str "Hey there! I\x27m LinkMe, your tutorial discovery assistant.\n\nWhat would you like to learn today? I can help you find tutorials on anything - programming, cooking, music, crafts, and more!"

/-- The empty-message reply of part_006. -/
def emptyReply : Str :=
  str "I didn\x27t catch that. What would you like to learn?"

/-- The reset reply of part_006. -/
def resetReply : Str := str "No problem! What would you like to learn?"

/-- The zero-results reply of part_006 (line 249). -/
def noResultsReply (topic : Str) : Str :=
  str "I couldn\x27t find good tutorials for \x22" ++ topic ++
  str "\x22. Could you try describing it differently?"

/-- The search-error reply of part_006 (the 500 response body message). -/
def searchFailReply : Str := str "Failed to search. Please try again."

/-- The results reply of part_006 (line 284); note it interpolates the raw
`state.topic` slot. -/
def resultsReply (stateTopic : Option Str) (level goal : Str) (n : Nat) : Str :=
  let levelText := upperFirst level
  let goalText :=
    if goal == str "project" then str "project-based"
    else if goal == str "concepts" then str "concept" else str "quick"
  str "Found " ++ natToStr n ++ str " great tutorials!\n\nTopic: " ++
  optToStr stateTopic ++ str "\nLevel: " ++ levelText ++ str "\nStyle: " ++
  goalText ++ str "\n\nHere are the best videos I found for you:"

/-- JavaScript `slot || fallback` on an optional stored string. -/
def jsOrSlot (o : Option Str) (d : Str) : Str :=
  match o with
  | some s => if s.isEmpty then d else s
  | none => d

/-- The search-query assembly of part_006 (lines 226-238). -/
def buildSearchQuery (topic level goal : Str) : Str :=
  let q := topic ++ str " tutorial"
  let q := q ++
    (if level == str "beginner" then str " for beginners"
     else if level == str "advanced" then str " advanced" else [])
  q ++
    (if goal == str "project" then str " project"
     else if goal == str "quick" then str " crash course" else [])

/-- The ready_to_search/results block of part_006 (lines 220-295): resolve
the slots with defaults, search, and either reset on zero results, report
the failure, or enter the results stage. -/
def runSearch (s : ConvState) (userMessage : Str)
    (search : Str → Except Unit (List YouTubeVideo)) : ConvState × Str :=
  let topic := jsOrSlot s.topic userMessage
  let level := jsOrSlot s.skillLevel (str "beginner")
  let goal := jsOrSlot s.goal (str "project")
  match search (buildSearchQuery topic level goal) with
  | Except.error _ => (s, searchFailReply)
  | Except.ok [] => ({ stage := DialogStage.greeting }, noResultsReply topic)
  | Except.ok ts =>
      ({ s with stage := DialogStage.results },
       resultsReply s.topic level goal ts.length)

/-- The message actually processed by the handler:
`sanitizeInput(message).trim()`. -/
def userMessageOf (rawMessage : String) : Str :=
  jsTrim (sanitizeStr (str rawMessage))

/-- One turn of the part_006 dialogue controller (`POST` handler body from
the sanitization onward). -/
def chatStep (s : ConvState) (rawMessage : String)
    (search : Str → Except Unit (List YouTubeVideo)) : ConvState × Str :=
  let um := userMessageOf rawMessage
  if um.isEmpty then (s, emptyReply)
  else if containsResetWord um then
    ({ stage := DialogStage.greeting }, resetReply)
  else
    match s.stage with
    | DialogStage.greeting =>
        if isGreeting um then (s, greetingIntro)
        else
          ({ s with stage := DialogStage.got_topic, topic := some um },
           getSkillQuestion um)
    | DialogStage.got_topic =>
        let level :=
          match extractSkillLevel um with
          | some l => some l
          | none => if isUnsure um then some (str "beginner") else none
        match level with
        | none => (s, skillRetryQuestion (optToStr s.topic))
        | some l =>
            ({ s with skillLevel := some l, stage := DialogStage.got_level },
             getGoalQuestion (optToStr s.topic) l)
    | DialogStage.got_level =>
        let goal := (extractGoal um).getD (str "project")
        runSearch
          { s with goal := some goal, stage := DialogStage.ready_to_search }
          um search
    | DialogStage.ready_to_search => runSearch s um search
    | DialogStage.results => runSearch s um search

def cexSearchOk : Str → Except Unit (List YouTubeVideo) :=
  fun _ => Except.ok [sampleVideo]

/-- A got_topic state with a stored topic, used in concrete runs. -/
def cexTopicState : ConvState :=
  { stage := DialogStage.got_topic, topic := some (str "cooking") }

/-- A results-stage state with all slots resolved. -/
def cexResultsState : ConvState :=
  { stage := DialogStage.results, topic := some (str "react")
    skillLevel := some (str "beginner"), goal := some (str "project") }

/-! ## Dialogue Controller, clarifying-questions variant (part_003 POST
`/api/chat/message`, with `generateClarifyingQuestions` from
`src/lib/youtube.ts`) -/

/-- `generateClarifyingQuestions` question texts. -/
def languageQuestion : Str :=
  str "What programming language or framework are you interested in?"

/-- The skill-level clarifying question of `generateClarifyingQuestions`. -/
def skillLevelQuestion : Str :=
  str "What is your current skill level? (Beginner, Intermediate, or Advanced)"

/-- The goal clarifying question of `generateClarifyingQuestions`. -/
def goalQuestion : Str :=
  str "Are you looking to build something specific, or learn concepts?"

/-- `generateClarifyingQuestions` from `src/lib/youtube.ts`: build up to
three questions in a fixed order and return at most the first two
(`questions.slice(0, 2)`). -/
def generateClarifyingQuestions (query : Str) : List Str :=
  let lowerQuery := jsToLower query
  let languages :=
    [str "python", str "javascript", str "java", str "c++", str "rust",
     str "go", str "typescript", str "react", str "vue", str "angular"]
  let foundLanguages := languages.filter (fun lang => jsIncludes lowerQuery lang)
  let questions :=
    (if foundLanguages.length == 0 &&
        (jsIncludes lowerQuery (str "programming") ||
         jsIncludes lowerQuery (str "coding") ||
         jsIncludes lowerQuery (str "development"))
     then [languageQuestion] else []) ++
    (if !(jsIncludes lowerQuery (str "beginner")) &&
        !(jsIncludes lowerQuery (str "advanced")) &&
        !(jsIncludes lowerQuery (str "intermediate"))
     then [skillLevelQuestion] else []) ++
    (if !(jsIncludes lowerQuery (str "project")) &&
        !(jsIncludes lowerQuery (str "example")) &&
        !(jsIncludes lowerQuery (str "build"))
     then [goalQuestion] else [])
  questions.take 2

/-- `SEARCH_KEYWORDS` of the part_003 chat handler. -/
def SEARCH_KEYWORDS : List Str :=
  [str "find", str "search", str "looking for", str "tutorial", str "learn",
   str "how to", str "guide", str "video", str "teach", str "show me"]

/-- `FOLLOWUP_KEYWORDS` of the part_003 chat handler. -/
def FOLLOWUP_KEYWORDS : List Str :=
  [str "more", str "another", str "similar", str "like that", str "also",
   str "other", str "else", str "again", str "advanced", str "beginner"]

/-- `isNewTopic` from the part_003 chat handler: follow-up vocabulary never
makes a new topic; otherwise zero word overlap (words longer than 3) with
more than two significant words does, and a search keyword with no overlap
does. -/
def isNewTopic (message previousQuery : Str) : Bool :=
  let lowerMessage := jsToLower message
  let lowerPrevious := jsToLower previousQuery
  if FOLLOWUP_KEYWORDS.any (fun kw => jsIncludes lowerMessage kw) then false
  else
    let prevWords := (wordsOf lowerPrevious).filter (fun w => w.length > 3)
    let msgWords := (wordsOf lowerMessage).filter (fun w => w.length > 3)
    let overlap := msgWords.any (fun word => prevWords.contains word)
    if !overlap && msgWords.length > 2 then true
    else if SEARCH_KEYWORDS.any (fun kw => jsIncludes lowerMessage kw) then
      !overlap
    else false

/-- The dialogue stages of the part_003 chat handler. -/
inductive Stage2
  | initial
  | clarifying
  | searching
  | results
  deriving Repr, DecidableEq

/-- `ConversationState` of the part_003 chat handler.  The interface also
declares optional `skillLevel`/`buildGoal` fields, but no code path ever
writes or reads them; they are carried here unchanged. -/
structure ConvState2 where
  stage : Stage2
  query : Str
  skillLevel : Option Str := none
  buildGoal : Option Str := none
  deriving Repr, DecidableEq

/-- The observable output of one part_003 chat turn. -/
structure Reply2 where
  response : Str
  clarifyingQuestions : List Str
  tutorials : Option (List YouTubeVideo)
  isError : Bool
  deriving Repr, DecidableEq

/-- The clarifying-questions response text: numbered questions joined onto
the intro line. -/
def clarifyIntroReply (questions : List Str) : Str :=
  str "Great! I\x27d like to find the best tutorials for you. Let me ask a few quick questions:\n\n" ++
  List.intercalate (str "\n")
    (questions.enum.map (fun p => natToStr (p.1 + 1) ++ str ". " ++ p.2))

/-- The greeting/unclear-intent response of the part_003 chat handler. -/
def greeting2Reply : Str :=
  str "👋 Hi! I\x27m LinkMe, your tutorial discovery assistant.\n\nTell me what you\x27d like to learn, and I\x27ll find the best tutorial videos for you. For example:\n\n• \x22I want to learn React for beginners\x22\n• \x22Find Python data science tutorials\x22\n• \x22How to build a website with Next.js\x22"

/-- The zero-results response of the part_003 chat handler. -/
def noResults2Reply : Str :=
  str "I couldn\x27t find any tutorials matching your request. Could you try rephrasing or being more specific about what you\x27d like to learn?"

/-- The results response of the part_003 chat handler. -/
def found2Reply (n : Nat) : Str :=
  str "🎯 I found " ++ natToStr n ++
  str " great tutorials for you!\n\nHere are the best videos I\x27ve curated based on quality and relevance:"

/-- The search-error (500) response message of the part_003 chat handler. -/
def searchFail2Reply : Str :=
  str "Failed to search for tutorials. Please try again."

/-- The search block of the part_003 chat handler (lines 353-395).  `s0` is
the state held in the map (persisted only on the zero-result and result
paths; the thrown-error path leaves the map untouched). -/
def runSearch2 (s0 s2 : ConvState2) (sanitized : Str)
    (search : Str → Except Unit (List YouTubeVideo)) : ConvState2 × Reply2 :=
  let searchQuery :=
    if s2.stage == Stage2.results then s2.query ++ str " " ++ sanitized
    else s2.query
  match search searchQuery with
  | Except.error _ =>
      (s0, { response := searchFail2Reply, clarifyingQuestions := []
             tutorials := none, isError := true })
  | Except.ok [] =>
      ({ stage := Stage2.initial, query := [] },
       { response := noResults2Reply, clarifyingQuestions := []
         tutorials := none, isError := false })
  | Except.ok ts =>
      ({ stage := Stage2.results, query := searchQuery },
       { response := found2Reply ts.length, clarifyingQuestions := []
         tutorials := some ts, isError := false })

/-- One turn of the part_003 chat handler (`POST` body from the
sanitization onward).  The returned state is the map content after the
turn: this variant reassigns whole state objects and persists them only
with explicit `conversationStates.set` calls, so the greeting branch and
the error branch keep the previous map state `s0`. -/
def chat2Step (s0 : ConvState2) (rawMessage : String)
    (search : Str → Except Unit (List YouTubeVideo)) : ConvState2 × Reply2 :=
  let sanitized := sanitizeStr (str rawMessage)
  let lower := jsToLower sanitized
  let s1 :=
    if (s0.stage == Stage2.clarifying || s0.stage == Stage2.results) &&
        isNewTopic sanitized s0.query
    then { stage := Stage2.initial, query := [] } else s0
  match s1.stage with
  | Stage2.initial =>
      if SEARCH_KEYWORDS.any (fun keyword => jsIncludes lower keyword) ||
          lower.length > 10 then
        let questions := generateClarifyingQuestions sanitized
        if questions.isEmpty then
          runSearch2 s0 { stage := Stage2.searching, query := sanitized }
            sanitized search
        else
          ({ stage := Stage2.clarifying, query := sanitized },
           { response := clarifyIntroReply questions
             clarifyingQuestions := questions, tutorials := none
             isError := false })
      else
        (s0, { response := greeting2Reply, clarifyingQuestions := []
               tutorials := none, isError := false })
  | Stage2.clarifying =>
      runSearch2 s0
        { stage := Stage2.searching, query := s1.query ++ str " " ++ sanitized }
        sanitized search
  | Stage2.searching => runSearch2 s0 s1 sanitized search
  | Stage2.results => runSearch2 s0 s1 sanitized search

/-! ## Progress Tracker (part_003, `/api/learning-path/progress` POST)

The Prisma database is modelled as explicit lists; `new Date()` is an
explicit `now` argument.  The unique key of `videoProgress` is
`(learningPathId, videoId)`, so the upsert's update branch is modelled by
updating every record with that key (the database holds at most one). -/

/-- A `savedLearningPath` row, restricted to the fields the handler
reads. -/
structure SavedLearningPath where
  id : String
  userId : String
  totalVideos : Nat
  deriving Repr, DecidableEq

/-- A `videoProgress` row. -/
structure VideoProgress where
  userId : String
  learningPathId : String
  videoId : String
  watched : Bool
  watchedAt : Option Nat
  deriving Repr, DecidableEq

/-- The database state visible to the progress handler. -/
structure Db where
  savedLearningPaths : List SavedLearningPath
  videoProgress : List VideoProgress
  deriving Repr, DecidableEq

/-- The success payload of the progress POST response. -/
structure ProgressInfo where
  videoId : String
  watched : Bool
  totalProgress : Nat
  watchedCount : Nat
  totalVideos : Nat
  deriving Repr, DecidableEq

/-- `Math.round((watchedCount / totalVideos) * 100)` for a positive
denominator: round half up, computed exactly over the rationals the
JavaScript expression denotes. -/
def jsRound100 (watchedCount totalVideos : Nat) : Nat :=
  (200 * watchedCount + totalVideos) / (2 * totalVideos)

/-- The unique-key predicate of the `videoProgress` upsert
(`learningPathId_videoId`). -/
def progressKey (lp vid : String) (r : VideoProgress) : Bool :=
  r.learningPathId == lp && r.videoId == vid

/-- The `update` payload of the upsert: `watchedAt` is `new Date()` when
marking watched and `null` otherwise. -/
def updateProgressRow (watched : Bool) (now : Nat) (r : VideoProgress) :
    VideoProgress :=
  { r with watched := watched
           watchedAt := if watched then some now else none }

/-- The `create` payload of the upsert. -/
def newProgressRow (uid lp vid : String) (watched : Bool) (now : Nat) :
    VideoProgress :=
  { userId := uid, learningPathId := lp, videoId := vid, watched := watched
    watchedAt := if watched then some now else none }

/-- `db.videoProgress.upsert`: update the row with the unique key when it
exists, create it otherwise. -/
def upsertProgress (rows : List VideoProgress) (uid lp vid : String)
    (watched : Bool) (now : Nat) : List VideoProgress :=
  if rows.any (progressKey lp vid) then
    rows.map (fun r =>
      if progressKey lp vid r then updateProgressRow watched now r else r)
  else
    rows ++ [newProgressRow uid lp vid watched now]

/-- The progress POST handler from part_003 (lines 42-100), after
authentication: verify the path belongs to the requesting user (404 and no
mutation otherwise, modelled by `none`), upsert the row, then recompute
the watched count and percentage live from the post-upsert rows. -/
def setWatched (db : Db) (uid lp vid : String) (watched : Bool)
    (now : Nat) : Db × Option ProgressInfo :=
  match db.savedLearningPaths.find? (fun p => p.id == lp && p.userId == uid) with
  | none => (db, none)
  | some learningPath =>
      let rows := upsertProgress db.videoProgress uid lp vid watched now
      let allProgress := rows.filter (fun r => r.learningPathId == lp)
      let watchedCount := allProgress.countP (fun r => r.watched)
      let progressPercent :=
        if learningPath.totalVideos > 0 then
          jsRound100 watchedCount learningPath.totalVideos
        else 0
      ({ db with videoProgress := rows },
       some { videoId := vid, watched := watched
              totalProgress := progressPercent
              watchedCount := watchedCount
              totalVideos := learningPath.totalVideos })

/-! ## Search Gateway (`searchTutorials`, `src/lib/youtube.ts`)

The two provider HTTP responses (the search list and the details list) are
explicit inputs; the request parameters the function would send are
modelled by `buildSearchRequest`.  The throw paths (missing API key,
non-ok HTTP status) leave no list to bound, so the post-response
processing is modelled as the total function `searchTutorialsModel`. -/

/-- One item of the provider's search response
(`item.id.videoId` and `item.snippet`). -/
structure SearchItem where
  videoId : String
  title : String
  description : String
  thumbHigh : Option String
  thumbMedium : Option String
  thumbDefault : Option String
  channelTitle : String
  publishedAt : String
  deriving Repr, DecidableEq

/-- One item of the provider's details response
(`statistics.viewCount`, `contentDetails.duration`). -/
structure VideoDetailsItem where
  id : String
  viewCount : Option String
  duration : Option String
  deriving Repr, DecidableEq

/-- Leading decimal digits of a string (and the rest). -/
def takeDigits : Str → Str × Str
  | [] => ([], [])
  | c :: t =>
      if c.isDigit then
        let p := takeDigits t
        (c :: p.1, p.2)
      else ([], c :: t)

/-- Numeric value of a digit string (`parseInt` on an all-digit input; the
callers below only ever apply it to strings containing digits). -/
def digitsToNat (ds : Str) : Nat :=
  ds.foldl (fun acc c => acc * 10 + (c.toNat - 48)) 0

/-- The substring after the first occurrence of `PT`, if any (where the
duration regex can match). -/
def findPT : Str → Option Str
  | [] => none
  | 'P' :: 'T' :: rest => some rest
  | _ :: t => findPT t

/-- One optional regex group `(\d+)X`: digits directly followed by the
unit letter; otherwise the group stays unmatched and the position is
unchanged. -/
def parseGroup (unit : Char) (s : Str) : Option Str × Str :=
  let p := takeDigits s
  if p.1.isEmpty then (none, s)
  else
    match p.2 with
    | c :: r => if c == unit then (some p.1, r) else (none, s)
    | [] => (none, s)

/-- `padStart(2, '0')`. -/
def padTwo (ds : Str) : Str :=
  if ds.length < 2 then List.replicate (2 - ds.length) '0' ++ ds else ds

/-- `formatDuration` from `src/lib/youtube.ts`: convert an ISO-8601
duration (`PT#H#M#S`, each group optional) to `H:MM:SS` / `MM:SS`; an
input with no `PT` yields the empty string. -/
def formatDuration (isoDuration : String) : String :=
  match findPT isoDuration.data with
  | none => ""
  | some rest =>
      let h := parseGroup 'H' rest
      let m := parseGroup 'M' h.2
      let s := parseGroup 'S' m.2
      let hours := match h.1 with | some ds => ds ++ str ":" | none => []
      let minutes := match m.1 with | some ds => padTwo ds | none => str "00"
      let seconds := match s.1 with | some ds => padTwo ds | none => str "00"
      String.mk (hours ++ minutes ++ str ":" ++ seconds)

/-- One decimal digit after the point: `(num / d).toFixed(1)` over exact
arithmetic (round half up), rendered as `x.y`. -/
def toFixedOne (num d : Nat) : Str :=
  let tenths := (num * 10 + d / 2) / d
  natToStr (tenths / 10) ++ str "." ++ natToStr (tenths % 10)

/-- `formatViewCount` from `src/lib/youtube.ts`: render a raw view count
with a `B`/`M`/`K` suffix. -/
def formatViewCount (count : String) : String :=
  let num := digitsToNat (takeDigits count.data).1
  if num ≥ 1000000000 then
    String.mk (toFixedOne num 1000000000 ++ str "B views")
  else if num ≥ 1000000 then
    String.mk (toFixedOne num 1000000 ++ str "M views")
  else if num ≥ 1000 then
    String.mk (toFixedOne num 1000 ++ str "K views")
  else
    String.mk (natToStr num ++ str " views")

/-- The sort key of the popularity sort:
`parseInt(v.viewCount?.replace(/[^\d]/g, '') || '0', 10)` (all digits of
the label concatenated; an absent label counts 0; a constructed label
always contains digits). -/
def viewsSortKey (v : YouTubeVideo) : Nat :=
  match v.viewCount with
  | some s => digitsToNat (s.data.filter Char.isDigit)
  | none => 0

/-- Stable descending insertion by a numeric key: the element being placed
goes before every element with a key not larger than its own, which is the
result of the stable `Array.prototype.sort` with comparator
`(a, b) => key(b) - key(a)`. -/
def insertDescBy (key : YouTubeVideo → Nat) (a : YouTubeVideo) :
    List YouTubeVideo → List YouTubeVideo
  | [] => [a]
  | b :: bs =>
      if key b ≤ key a then a :: b :: bs else b :: insertDescBy key a bs

/-- The popularity sort of `searchTutorials` (descending by parsed view
count, stable). -/
def sortDescBy (key : YouTubeVideo → Nat) (l : List YouTubeVideo) :
    List YouTubeVideo :=
  l.foldr (insertDescBy key) []

/-- The request parameters `searchTutorials` sends to the provider: the
enhanced query (`query + ' tutorial'`) and
`maxResults: Math.min(maxResults + 3, 15)` (line 112). -/
def buildSearchRequest (query : String) (maxResults : Nat) : String × Nat :=
  (query ++ " tutorial", min (maxResults + 3) 15)

/-- JavaScript truthiness guard `x ? f(x) : undefined` on an optional
string (an empty string is falsy). -/
def jsTruthyMap (o : Option String) (f : String → String) : Option String :=
  match o with
  | some s => if s = "" then none else some (f s)
  | none => none

/-- The response-processing tail of `searchTutorials` (lines 130-187):
empty search response short-circuits to `[]`; otherwise map each search
item to a `YouTubeVideo` (joining the details by id), sort by view count
descending, and truncate to `maxResults`. -/
def searchTutorialsModel (searchItems : List SearchItem)
    (videoDetails : List VideoDetailsItem) (maxResults : Nat) :
    List YouTubeVideo :=
  if searchItems.isEmpty then []
  else
    let videos := searchItems.map (fun item =>
      let details := videoDetails.find? (fun d => d.id == item.videoId)
      { id := item.videoId
        title := item.title
        description := item.description
        thumbnail :=
          jsOrStr item.thumbHigh
            (jsOrStr item.thumbMedium (jsOrStr item.thumbDefault ""))
        channelTitle := item.channelTitle
        publishedAt := item.publishedAt
        viewCount :=
          jsTruthyMap (details.bind (fun d => d.viewCount)) formatViewCount
        duration :=
          jsTruthyMap (details.bind (fun d => d.duration)) formatDuration
        url := "https://www.youtube.com/watch?v=" ++ item.videoId
        : YouTubeVideo })
    (sortDescBy viewsSortKey videos).take maxResults

/-! ## Supporting lemmas -/

/-! ## Supporting lemmas about the curation merge step -/

lemma processEntry_isSome (videos : List YouTubeVideo) (e : RawVideoEntry) :
    (processEntry videos e).isSome =
      (videos.find? (fun v => v.id == e.videoId)).isSome := by
  unfold processEntry
  cases videos.find? (fun v => v.id == e.videoId) <;> rfl

lemma processEntry_spec {videos : List YouTubeVideo} {e : RawVideoEntry}
    {va : VideoAnalysis} (h : processEntry videos e = some va) :
    ∃ v, videos.find? (fun v => v.id == e.videoId) = some v ∧
      va.videoId = v.id := by
  unfold processEntry at h
  cases hf : videos.find? (fun v => v.id == e.videoId) with
  | none => rw [hf] at h; exact absurd h (by simp)
  | some v =>
      rw [hf] at h
      refine ⟨v, rfl, ?_⟩
      cases h
      rfl

lemma processEntry_videoId {videos : List YouTubeVideo} {e : RawVideoEntry}
    {va : VideoAnalysis} (h : processEntry videos e = some va) :
    va.videoId = e.videoId := by
  obtain ⟨v, hf, hid⟩ := processEntry_spec h
  have hbeq := List.find?_some hf
  have : v.id = e.videoId := by
    simpa using hbeq
  rw [hid, this]

lemma filterMap_map_sublist {α β γ : Type} (f : α → Option β) (g : β → γ)
    (h : α → γ) (hfg : ∀ a b, f a = some b → g b = h a) :
    ∀ l : List α, ((l.filterMap f).map g).Sublist (l.map h) := by
  intro l
  induction l with
  | nil => simp
  | cons a l ih =>
      cases hfa : f a with
      | none =>
          simp only [List.filterMap_cons, hfa, List.map_cons]
          exact ih.cons (h a)
      | some b =>
          simp only [List.filterMap_cons, hfa, List.map_cons]
          rw [hfg a b hfa]
          exact ih.cons₂ (h a)

lemma sublist_flatMap_of_sublist {α β : Type} {l₁ l₂ : List α}
    (f : α → List β) (h : l₁.Sublist l₂) :
    (l₁.flatMap f).Sublist (l₂.flatMap f) := by
  induction h with
  | slnil => simp
  | cons a h ih =>
      simp only [List.flatMap_cons]
      exact ih.trans (List.sublist_append_right _ _)
  | cons₂ a h ih =>
      simp only [List.flatMap_cons]
      exact ih.append_left _

lemma flatMap_mono_pointwise {α β : Type} {l : List α} {f g : α → List β}
    (h : ∀ a ∈ l, (f a).Sublist (g a)) :
    (l.flatMap f).Sublist (l.flatMap g) := by
  induction l with
  | nil => simp
  | cons a l ih =>
      simp only [List.flatMap_cons]
      exact (h a (List.mem_cons_self a l)).append
        (ih fun x hx => h x (List.mem_cons_of_mem a hx))

lemma length_filterMap_eq_countP {α β : Type} (f : α → Option β) :
    ∀ l : List α, (l.filterMap f).length = l.countP (fun a => (f a).isSome) := by
  intro l
  induction l with
  | nil => rfl
  | cons a l ih =>
      cases hfa : f a <;>
        simp [List.filterMap_cons, List.countP_cons, hfa, ih]

lemma sum_map_filter_pos {α : Type} (f : α → Nat) :
    ∀ l : List α,
      ((l.filter (fun a => f a > 0)).map f).sum = (l.map f).sum := by
  intro l
  induction l with
  | nil => rfl
  | cons a l ih =>
      by_cases ha : f a > 0
      · simp [List.filter_cons, ha, ih]
      · have hz : f a = 0 := by omega
        simp [List.filter_cons, ha, ih, hz]

lemma countP_flatMap {α β : Type} (p : β → Bool) (f : α → List β) :
    ∀ l : List α,
      (l.flatMap f).countP p = (l.map (fun a => (f a).countP p)).sum := by
  intro l
  induction l with
  | nil => rfl
  | cons a l ih =>
      simp only [List.flatMap_cons, List.countP_append, List.map_cons,
        List.sum_cons, ih]

/-- Helper: destruct a successful run of `analyzeAndCurateVideos` into its
explicit result record. -/
lemma analyzeAndCurateVideos_some {hasApiKey : Bool}
    {videos : List YouTubeVideo} {topic userLevel userGoal : String}
    {serviceResponse : Option RawAnalysis} {p : LearningPath}
    (hp : analyzeAndCurateVideos hasApiKey videos topic userLevel userGoal
      serviceResponse = some p) :
    ∃ analysis, serviceResponse = some analysis ∧
      p.stages = ((analysis.stages.getD []).map (processStage videos)).filter
        (fun st => st.videos.length > 0) ∧
      p.totalVideos = (((analysis.stages.getD []).map (processStage videos)).map
        (fun st => st.videos.length)).sum := by
  unfold analyzeAndCurateVideos at hp
  split at hp
  · exact absurd hp (by simp)
  · cases serviceResponse with
    | none => exact absurd hp (by simp)
    | some analysis =>
        refine ⟨analysis, rfl, ?_, ?_⟩
        · cases hp; rfl
        · cases hp; rfl

lemma runSearch_preserves_topic (s : ConvState) (um : Str)
    (search : Str → Except Unit (List YouTubeVideo))
    (hs : ∀ q, search q ≠ Except.ok []) :
    (runSearch s um search).1.topic = s.topic := by
  unfold runSearch
  simp only
  split
  · rfl
  · rename_i heq
    exact absurd heq (hs _)
  · rfl

/-- C8 counterexample: in RESULTS with topic `react` set, the non-reset
utterance `guitar lessons please` triggers a re-search; when the provider
returns zero tutorials the controller resets the whole state to GREETING,
clearing the topic slot even though no reset phrase occurred. -/

lemma progressKey_update (lp vid : String) (w : Bool) (t : Nat)
    (r : VideoProgress) :
    progressKey lp vid (updateProgressRow w t r) = progressKey lp vid r := by
  cases r
  rfl

lemma updateProgressRow_absorb (w : Bool) (t1 t2 : Nat) (r : VideoProgress) :
    updateProgressRow w t2 (updateProgressRow w t1 r) =
      updateProgressRow w t2 r := by
  cases r
  rfl

lemma progressKey_new (uid lp vid : String) (w : Bool) (t : Nat) :
    progressKey lp vid (newProgressRow uid lp vid w t) = true := by
  simp [progressKey, newProgressRow]

lemma upsertProgress_absorb (rows : List VideoProgress)
    (uid lp vid : String) (w : Bool) (t1 t2 : Nat) :
    upsertProgress (upsertProgress rows uid lp vid w t1) uid lp vid w t2 =
      upsertProgress rows uid lp vid w t2 := by
  by_cases h : rows.any (progressKey lp vid) = true
  · have hc : (progressKey lp vid ∘ fun r =>
        if progressKey lp vid r then updateProgressRow w t1 r else r) =
          progressKey lp vid := by
      funext r
      by_cases hr : progressKey lp vid r = true <;>
        simp [Function.comp, hr, progressKey_update]
    have hany :
        (rows.map (fun r =>
          if progressKey lp vid r then updateProgressRow w t1 r else r)).any
            (progressKey lp vid) = true := by
      rw [List.any_map, hc]
      exact h
    unfold upsertProgress
    rw [if_pos h, if_pos hany, if_pos h, List.map_map]
    refine List.map_congr_left ?_
    intro r _
    by_cases hr : progressKey lp vid r = true
    · simp only [Function.comp, hr, if_true, if_pos hr]
      rw [if_pos (by rw [progressKey_update]; exact hr)]
      exact updateProgressRow_absorb w t1 t2 r
    · simp [Function.comp, hr]
  · have hany2 :
        (rows ++ [newProgressRow uid lp vid w t1]).any
          (progressKey lp vid) = true := by
      rw [List.any_append]
      simp [progressKey_new]
    have hrows : ∀ r ∈ rows, progressKey lp vid r = false := by
      intro r hr
      have := (List.any_eq_false.mp (by simpa using h)) r hr
      simpa using this
    unfold upsertProgress
    rw [if_neg h, if_pos hany2, if_neg h]
    rw [List.map_append]
    congr 1
    · refine (List.map_congr_left ?_).trans (List.map_id rows)
      intro r hr
      rw [if_neg (by simp [hrows r hr])]
      rfl
    · simp only [List.map_cons, List.map_nil]
      rw [if_pos (progressKey_new uid lp vid w t1)]
      cases w <;> rfl

lemma insertDescBy_length (key : YouTubeVideo → Nat) (a : YouTubeVideo) :
    ∀ l, (insertDescBy key a l).length = l.length + 1 := by
  intro l
  induction l with
  | nil => rfl
  | cons b bs ih =>
      unfold insertDescBy
      split <;> simp [ih]

lemma sortDescBy_length (key : YouTubeVideo → Nat) (l : List YouTubeVideo) :
    (sortDescBy key l).length = l.length := by
  induction l with
  | nil => rfl
  | cons a l ih =>
      unfold sortDescBy at ih ⊢
      simp [List.foldr_cons, insertDescBy_length, ih]

/-! ## C1: the non-empty-path postcondition -/

/-- C1 counterexample: with one known candidate and a service response
whose only entry references an unknown id, zero stages survive the merge,
yet `analyzeAndCurateVideos` returns a `LearningPath` with `stages = []`
instead of `null`. -/
theorem curation_returns_empty_stages_path :
    analyzeAndCurateVideos true [sampleVideo] "t" "beginner" "project"
      (some (rawOneStage [rawEntry "unknown"])) =
    some { topic := "t", userLevel := "beginner", userGoal := "project"
           totalVideos := 0, estimatedTotalTime := "Unknown", stages := []
           completionGoals := [], summary := "" } := by
  rfl

/-- C1 amended: every stage contained in a path returned by
`analyzeAndCurateVideos` is non-empty (stages that end up with zero matched
videos are dropped), but when zero stages survive the function still
returns a path with `stages.length = 0` rather than `null`. -/
theorem curation_no_empty_stage_in_path (hasApiKey : Bool)
    (videos : List YouTubeVideo) (topic userLevel userGoal : String)
    (serviceResponse : Option RawAnalysis) (p : LearningPath)
    (hp : analyzeAndCurateVideos hasApiKey videos topic userLevel userGoal
      serviceResponse = some p)
    (st : LearningStage) (hst : st ∈ p.stages) : 0 < st.videos.length := by
  obtain ⟨analysis, -, hstages, -⟩ := analyzeAndCurateVideos_some hp
  rw [hstages] at hst
  have := (List.mem_filter.mp hst).2
  simpa using this

/-- C1 witness: the amended theorem applied at a concrete input. -/
theorem curation_no_empty_stage_in_path_witness :
    analyzeAndCurateVideos true [sampleVideo] "t" "beginner" "project"
      (some (rawOneStage [rawEntry "vid1"])) = some samplePath ∧
    sampleStage ∈ samplePath.stages ∧ 0 < sampleStage.videos.length :=
  ⟨by rfl, by simp [samplePath], curation_no_empty_stage_in_path true
    [sampleVideo] "t" "beginner" "project"
    (some (rawOneStage [rawEntry "vid1"])) samplePath (by rfl) sampleStage
    (by simp [samplePath])⟩

/-! ## C2: id-closure of the curation merge -/

/-- C2: every `videoId` appearing in any stage of a returned path equals the
id of some candidate in the input list; service entries whose id matches no
candidate are dropped, never fabricated. -/
theorem curation_id_closure (hasApiKey : Bool) (videos : List YouTubeVideo)
    (topic userLevel userGoal : String)
    (serviceResponse : Option RawAnalysis) (p : LearningPath)
    (hp : analyzeAndCurateVideos hasApiKey videos topic userLevel userGoal
      serviceResponse = some p)
    (st : LearningStage) (hst : st ∈ p.stages)
    (va : VideoAnalysis) (hva : va ∈ st.videos) :
    ∃ v ∈ videos, va.videoId = v.id := by
  obtain ⟨analysis, -, hstages, -⟩ := analyzeAndCurateVideos_some hp
  rw [hstages] at hst
  have hst' := (List.mem_filter.mp hst).1
  obtain ⟨s, -, hs⟩ := List.mem_map.mp hst'
  rw [← hs] at hva
  unfold processStage at hva
  simp only at hva
  obtain ⟨e, -, he⟩ := List.mem_filterMap.mp hva
  obtain ⟨v, hf, hid⟩ := processEntry_spec he
  exact ⟨v, List.mem_of_find?_eq_some hf, hid⟩

/-- C2 witness: id-closure applied at a concrete input. -/
theorem curation_id_closure_witness :
    analyzeAndCurateVideos true [sampleVideo] "t" "beginner" "project"
      (some (rawOneStage [rawEntry "vid1"])) = some samplePath ∧
    ∃ v ∈ [sampleVideo], sampleAnalysis.videoId = v.id :=
  ⟨by rfl, curation_id_closure true [sampleVideo] "t" "beginner" "project"
    (some (rawOneStage [rawEntry "vid1"])) samplePath (by rfl) sampleStage
    (by simp [samplePath]) sampleAnalysis (by simp [sampleStage])⟩

/-! ## C3: path-wide uniqueness of video ids -/

/-- C3 counterexample: the engine performs no deduplication, so a service
response that references the same known candidate id in two entries yields
a path in which that id appears in two `VideoAnalysis` records. -/
theorem curation_duplicate_videoId :
    Option.map pathVideoIds
      (analyzeAndCurateVideos true [sampleVideo] "t" "beginner" "project"
        (some (rawOneStage [rawEntry "vid1", rawEntry "vid1"]))) =
      some ["vid1", "vid1"] ∧
    ¬ (["vid1", "vid1"] : List String).Nodup := by
  exact ⟨by rfl, by decide⟩

/-- C3 amended: path-wide uniqueness holds only conditionally: if the raw
service response references each video id at most once across all its
stages, then every `videoId` of the returned path is unique path-wide.  The
engine itself never deduplicates, so a repeated id in the service output
survives into the path. -/
theorem curation_nodup_of_service_nodup (hasApiKey : Bool)
    (videos : List YouTubeVideo) (topic userLevel userGoal : String)
    (analysis : RawAnalysis) (p : LearningPath)
    (hp : analyzeAndCurateVideos hasApiKey videos topic userLevel userGoal
      (some analysis) = some p)
    (hnd : (rawVideoIds analysis).Nodup) : (pathVideoIds p).Nodup := by
  obtain ⟨analysis', ha, hstages, -⟩ := analyzeAndCurateVideos_some hp
  have haa : analysis' = analysis := by
    injection ha.symm
  subst haa
  refine List.Nodup.sublist ?_ hnd
  unfold pathVideoIds rawVideoIds
  rw [hstages]
  refine List.Sublist.trans
    (sublist_flatMap_of_sublist _ (List.filter_sublist _)) ?_
  rw [List.flatMap_map]
  refine flatMap_mono_pointwise ?_
  intro s _
  unfold processStage
  simp only
  exact filterMap_map_sublist (processEntry videos) (fun va => va.videoId)
    (fun e => e.videoId) (fun a b h => processEntry_videoId h) _

/-- C3 witness: uniqueness applied at a concrete input without duplicate
service ids. -/
theorem curation_nodup_witness :
    analyzeAndCurateVideos true [sampleVideo] "t" "beginner" "project"
      (some (rawOneStage [rawEntry "vid1"])) = some samplePath ∧
    (rawVideoIds (rawOneStage [rawEntry "vid1"])).Nodup ∧
    (pathVideoIds samplePath).Nodup :=
  ⟨by rfl, by decide, curation_nodup_of_service_nodup true [sampleVideo]
    "t" "beginner" "project" (rawOneStage [rawEntry "vid1"]) samplePath
    (by rfl) (by decide)⟩

/-! ## C4: `totalVideos` is recomputed -/

/-- C4: `totalVideos` of a returned path equals the number of service
entries successfully matched to an input candidate, which equals the sum of
`videos.length` over all stages of the path; it is never copied from the
service response (the raw JSON has no trusted total at all in the model,
and the count comes from the merge loop). -/
theorem curation_totalVideos_recomputed (hasApiKey : Bool)
    (videos : List YouTubeVideo) (topic userLevel userGoal : String)
    (analysis : RawAnalysis) (p : LearningPath)
    (hp : analyzeAndCurateVideos hasApiKey videos topic userLevel userGoal
      (some analysis) = some p) :
    p.totalVideos = matchedCount videos analysis ∧
    p.totalVideos = (p.stages.map (fun st => st.videos.length)).sum := by
  obtain ⟨analysis', ha, hstages, htot⟩ := analyzeAndCurateVideos_some hp
  have haa : analysis' = analysis := by
    injection ha.symm
  subst haa
  constructor
  · rw [htot]
    unfold matchedCount
    rw [countP_flatMap, List.map_map]
    congr 1
    refine List.map_congr_left ?_
    intro s _
    simp only [Function.comp]
    unfold processStage
    simp only
    rw [length_filterMap_eq_countP]
    refine List.countP_congr ?_
    intro e _
    rw [processEntry_isSome]
  · rw [htot, hstages]
    exact (sum_map_filter_pos
      (fun st : LearningStage => st.videos.length) _).symm

/-- C4 witness: the total-videos equalities at a concrete input. -/
theorem curation_totalVideos_witness :
    analyzeAndCurateVideos true [sampleVideo] "t" "beginner" "project"
      (some (rawOneStage [rawEntry "vid1"])) = some samplePath ∧
    samplePath.totalVideos =
      matchedCount [sampleVideo] (rawOneStage [rawEntry "vid1"]) ∧
    samplePath.totalVideos =
      (samplePath.stages.map (fun st => st.videos.length)).sum :=
  ⟨by rfl,
   (curation_totalVideos_recomputed true [sampleVideo] "t" "beginner"
     "project" (rawOneStage [rawEntry "vid1"]) samplePath (by rfl)).1,
   (curation_totalVideos_recomputed true [sampleVideo] "t" "beginner"
     "project" (rawOneStage [rawEntry "vid1"]) samplePath (by rfl)).2⟩

/-! ## C7: no early exit from GREETING -/

/-- C7 counterexample: from GREETING, the utterance
`beginner python projects` (which names a topic, a level and a goal) is
stored wholesale as the topic, the state moves to GOT_TOPIC — not to
READY_TO_SEARCH — and the controller asks the skill-level follow-up
question. -/
theorem greeting_all_slots_no_early_exit :
    chatStep { stage := DialogStage.greeting } "beginner python projects"
      cexSearchOk =
    ({ stage := DialogStage.got_topic,
       topic := some (str "beginner python projects") },
     getSkillQuestion (str "beginner python projects")) ∧
    (chatStep { stage := DialogStage.greeting } "beginner python projects"
      cexSearchOk).1.stage ≠ DialogStage.ready_to_search := by
  exact ⟨by decide, by decide⟩

/-- C7 amended: a non-greeting, non-reset, non-empty utterance processed
from the GREETING stage always stores the whole utterance as the topic,
transitions to GOT_TOPIC and asks the skill-level question; skill level
and goal are never extracted during the GREETING turn, so the controller
never reaches READY_TO_SEARCH in that turn. -/
theorem greeting_stores_utterance_as_topic (s : ConvState) (m : String)
    (search : Str → Except Unit (List YouTubeVideo))
    (h0 : s.stage = DialogStage.greeting)
    (h1 : (userMessageOf m).isEmpty = false)
    (h2 : containsResetWord (userMessageOf m) = false)
    (h3 : isGreeting (userMessageOf m) = false) :
    chatStep s m search =
      ({ s with stage := DialogStage.got_topic,
                topic := some (userMessageOf m) },
       getSkillQuestion (userMessageOf m)) := by
  simp [chatStep, h0, h1, h2, h3]

/-- C7 witness: the amended theorem at a concrete input. -/
theorem greeting_stores_utterance_witness :
    (({ stage := DialogStage.greeting } : ConvState).stage =
        DialogStage.greeting ∧
     (userMessageOf "guitar").isEmpty = false ∧
     containsResetWord (userMessageOf "guitar") = false ∧
     isGreeting (userMessageOf "guitar") = false) ∧
    chatStep { stage := DialogStage.greeting } "guitar" cexSearchOk =
      ({ stage := DialogStage.got_topic, topic := some (str "guitar") },
       getSkillQuestion (str "guitar")) :=
  ⟨⟨rfl, by decide, by decide, by decide⟩,
   greeting_stores_utterance_as_topic { stage := DialogStage.greeting }
     "guitar" cexSearchOk rfl (by decide) (by decide) (by decide)⟩

/-! ## C6: the retry/default policy for missing slots -/

/-- C6 counterexample: in GOT_TOPIC, the utterance `potato salad` yields
no skill level and is not flagged unsure, so the controller re-asks the
identical skill-level question with unchanged state on three consecutive
turns (and would do so forever). -/
theorem same_skill_question_three_turns :
    chatStep cexTopicState "potato salad" cexSearchOk =
      (cexTopicState, skillRetryQuestion (str "cooking")) ∧
    chatStep (chatStep cexTopicState "potato salad" cexSearchOk).1
      "potato salad" cexSearchOk =
      (cexTopicState, skillRetryQuestion (str "cooking")) ∧
    chatStep (chatStep (chatStep cexTopicState "potato salad"
      cexSearchOk).1 "potato salad" cexSearchOk).1 "potato salad"
      cexSearchOk =
      (cexTopicState, skillRetryQuestion (str "cooking")) ∧
    extractSkillLevel (userMessageOf "potato salad") = none ∧
    isUnsure (userMessageOf "potato salad") = false := by
  exact ⟨by decide, by decide, by decide, by decide, by decide⟩

/-- C6 amended: when the skill-level slot is pending and the utterance
yields no level, the controller applies the beginner default and advances
only when the utterance is flagged unsure; otherwise it re-asks the same
skill-level question with completely unchanged state — hence the same
question can recur on arbitrarily many consecutive turns.  (The goal slot
is never re-asked at all: `project` is applied immediately.) -/
theorem skill_retry_fixpoint_and_default (s : ConvState) (m : String)
    (search : Str → Except Unit (List YouTubeVideo))
    (h0 : s.stage = DialogStage.got_topic)
    (h1 : (userMessageOf m).isEmpty = false)
    (h2 : containsResetWord (userMessageOf m) = false)
    (hlev : extractSkillLevel (userMessageOf m) = none) :
    (isUnsure (userMessageOf m) = false →
      chatStep s m search = (s, skillRetryQuestion (optToStr s.topic))) ∧
    (isUnsure (userMessageOf m) = true →
      chatStep s m search =
        ({ s with skillLevel := some (str "beginner"),
                  stage := DialogStage.got_level },
         getGoalQuestion (optToStr s.topic) (str "beginner"))) := by
  constructor <;> intro hu <;> simp [chatStep, h0, h1, h2, hlev, hu]

/-- C6 witness: the amended theorem at a concrete input, with every
hypothesis discharged. -/
theorem skill_retry_fixpoint_witness :
    (cexTopicState.stage = DialogStage.got_topic ∧
     (userMessageOf "potato salad").isEmpty = false ∧
     containsResetWord (userMessageOf "potato salad") = false ∧
     extractSkillLevel (userMessageOf "potato salad") = none ∧
     isUnsure (userMessageOf "potato salad") = false) ∧
    chatStep cexTopicState "potato salad" cexSearchOk =
      (cexTopicState, skillRetryQuestion (optToStr cexTopicState.topic)) :=
  ⟨⟨rfl, by decide, by decide, by decide, by decide⟩,
   (skill_retry_fixpoint_and_default cexTopicState "potato salad"
     cexSearchOk rfl (by decide) (by decide) (by decide)).1 (by decide)⟩

/-! ## C8: monotonicity of the topic slot -/

/-- A search that never returns zero tutorials keeps the topic slot
through the search block. -/
theorem empty_search_clears_topic :
    cexResultsState.topic = some (str "react") ∧
    containsResetWord (userMessageOf "guitar lessons please") = false ∧
    (chatStep cexResultsState "guitar lessons please"
      (fun _ => Except.ok [])).1.topic = none := by
  exact ⟨rfl, by decide, by decide⟩

/-- C8 amended: once the topic slot is set (hence the stage left GREETING),
it is never overwritten or cleared by any later turn whose utterance
contains no reset phrase, provided the turn performs no search that
returns zero tutorials; a zero-result search resets the entire state to
GREETING, dropping the topic. -/
theorem topic_preserved_without_reset_or_empty_search (s : ConvState)
    (m : String) (search : Str → Except Unit (List YouTubeVideo)) (t : Str)
    (htop : s.topic = some t)
    (hstage : s.stage ≠ DialogStage.greeting)
    (hreset : containsResetWord (userMessageOf m) = false)
    (hsearch : ∀ q, search q ≠ Except.ok []) :
    (chatStep s m search).1.topic = some t := by
  by_cases he : (userMessageOf m).isEmpty
  · simp [chatStep, he, htop]
  · cases hst : s.stage with
    | greeting => exact absurd hst hstage
    | got_topic =>
        cases hx : extractSkillLevel (userMessageOf m) with
        | none =>
            by_cases hu : isUnsure (userMessageOf m) <;>
              simp [chatStep, he, hreset, hst, hx, hu, htop]
        | some l => simp [chatStep, he, hreset, hst, hx, htop]
    | got_level =>
        have hrun : chatStep s m search =
            runSearch
              { s with
                goal := some ((extractGoal (userMessageOf m)).getD
                  (str "project")),
                stage := DialogStage.ready_to_search }
              (userMessageOf m) search := by
          simp [chatStep, he, hreset, hst]
        rw [hrun, runSearch_preserves_topic _ _ _ hsearch]
        exact htop
    | ready_to_search =>
        have hrun : chatStep s m search =
            runSearch s (userMessageOf m) search := by
          simp [chatStep, he, hreset, hst]
        rw [hrun, runSearch_preserves_topic _ _ _ hsearch]
        exact htop
    | results =>
        have hrun : chatStep s m search =
            runSearch s (userMessageOf m) search := by
          simp [chatStep, he, hreset, hst]
        rw [hrun, runSearch_preserves_topic _ _ _ hsearch]
        exact htop

/-- C8 witness: topic preservation at a concrete input. -/
theorem topic_preserved_witness :
    (cexResultsState.topic = some (str "react") ∧
     cexResultsState.stage ≠ DialogStage.greeting ∧
     containsResetWord (userMessageOf "more please") = false) ∧
    (chatStep cexResultsState "more please" cexSearchOk).1.topic =
      some (str "react") :=
  ⟨⟨rfl, by decide, by decide⟩,
   topic_preserved_without_reset_or_empty_search cexResultsState
     "more please" cexSearchOk (str "react") rfl (by decide) (by decide)
     (by intro q h; simp [cexSearchOk] at h)⟩

/-! ## C5: how many slots one response may ask for -/

/-- C5 counterexample: from the initial state, the single utterance
`i want to learn cooking today` produces one response that asks for two
missing slots at once — the skill-level question and the goal question. -/
theorem two_slot_questions_in_one_response :
    (chat2Step { stage := Stage2.initial, query := [] }
      "i want to learn cooking today" cexSearchOk).2.clarifyingQuestions =
      [skillLevelQuestion, goalQuestion] ∧
    ((chat2Step { stage := Stage2.initial, query := [] }
      "i want to learn cooking today"
      cexSearchOk).2.clarifyingQuestions).length = 2 := by
  exact ⟨by decide, by decide⟩

/-- C5 amended: a single response never asks more than two clarifying
questions (`questions.slice(0, 2)`), but it may ask for two missing slots
in the same response (for example skill level and goal together); the
one-question-per-turn discipline does not hold for this controller. -/
theorem at_most_two_clarifying_questions (s0 : ConvState2) (m : String)
    (search : Str → Except Unit (List YouTubeVideo)) :
    ((chat2Step s0 m search).2.clarifyingQuestions).length ≤ 2 := by
  unfold chat2Step runSearch2
  dsimp only
  repeat' split
  all_goals simp [generateClarifyingQuestions, List.length_take]

/-! ## C9: idempotence of setWatched -/

/-- C9: for a path owned by the requester, calling `setWatched` twice with
the same `learningPathId`, `videoId` and `watched` value produces exactly
the same stored database state and the same response — in particular the
same reported completion percentage — as calling it once (the single call
being the one at the second call's clock value; the percentage does not
depend on the clock at all). -/
theorem setWatched_idempotent (db : Db) (uid lp vid : String) (w : Bool)
    (t1 t2 : Nat)
    (howner : (db.savedLearningPaths.find?
      (fun p => p.id == lp && p.userId == uid)).isSome = true) :
    setWatched (setWatched db uid lp vid w t1).1 uid lp vid w t2 =
      setWatched db uid lp vid w t2 := by
  cases db with
  | mk paths rows0 =>
      cases hfind : paths.find? (fun p => p.id == lp && p.userId == uid) with
      | none =>
          simp only [setWatched] at howner ⊢
          rw [hfind] at howner
          exact absurd howner (by simp)
      | some learningPath =>
          simp only [setWatched, hfind]
          rw [upsertProgress_absorb]

/-- C9 witness: idempotence at a concrete database. -/
theorem setWatched_idempotent_witness :
    (({ savedLearningPaths := [{ id := "p1", userId := "u1", totalVideos := 3 }]
        videoProgress := [] } : Db).savedLearningPaths.find?
      (fun p => p.id == "p1" && p.userId == "u1")).isSome = true ∧
    setWatched (setWatched
      { savedLearningPaths := [{ id := "p1", userId := "u1", totalVideos := 3 }]
        videoProgress := [] } "u1" "p1" "v1" true 5).1 "u1" "p1" "v1" true 9 =
      setWatched
        { savedLearningPaths := [{ id := "p1", userId := "u1", totalVideos := 3 }]
          videoProgress := [] } "u1" "p1" "v1" true 9 :=
  ⟨by decide, setWatched_idempotent
    { savedLearningPaths := [{ id := "p1", userId := "u1", totalVideos := 3 }]
      videoProgress := [] } "u1" "p1" "v1" true 5 9 (by decide)⟩

/-! ## C10: the search result is bounded by maxResults -/

/-- C10: `searchTutorials` asks the provider for exactly
`min(maxResults + 3, 15)` raw items and truncates the processed, sorted
list to `maxResults`, so for every query, every `maxResults` and every
pair of provider responses the returned list holds at most `maxResults`
videos. -/
theorem searchTutorials_bounded (query : String) (maxResults : Nat)
    (searchItems : List SearchItem) (videoDetails : List VideoDetailsItem) :
    (buildSearchRequest query maxResults).2 = min (maxResults + 3) 15 ∧
    (searchTutorialsModel searchItems videoDetails maxResults).length ≤
      maxResults := by
  refine ⟨rfl, ?_⟩
  unfold searchTutorialsModel
  split
  · simp
  · simp [List.length_take_le]
